import Mathlib

/-!
Shallow embedding of the telegram voice transcriber (src/main.py):
the quota ledger stored in SQLite (tables audio_stats and global_stats),
the admission check, the reporting queries, and the voice-message
pipeline (handle_voice / transcribe_audio), together with theorems
settling the specification claims about them.

Durations and totals (SQLite REAL) are modelled as rationals;
timestamps as naturals.
-/

/-- One row of the `audio_stats` table (a UsageRecord). -/
structure UsageRecord where
  user_id : Int
  username : Option String
  audio_length_sec : ℚ
  processed_at : Nat
  deriving Repr, DecidableEq

/-- The single row of the `global_stats` table (the GlobalCounter). -/
structure GlobalStats where
  total_audio_sec : ℚ
  last_updated : Nat
  deriving Repr, DecidableEq

/-- The persistent store: the `audio_stats` rows in insertion order plus
the singleton `global_stats` row (which `init_db` always creates). -/
structure DB where
  audio_stats : List UsageRecord
  global_stats : GlobalStats
  deriving Repr, DecidableEq

/-- The store right after `init_db` on a fresh data directory:
no usage rows, global counter at 0. -/
def initDB : DB := { audio_stats := [], global_stats := { total_audio_sec := 0, last_updated := 0 } }

/-- Constant `MAX_AUDIO_MINUTES` from main.py line 29. -/
def MAX_AUDIO_MINUTES : ℚ := 50

/-- `track_audio_processing` (main.py lines 73-98), success path: inside one
transaction it inserts a row into `audio_stats` and adds the same
`audio_length_sec` to `global_stats.total_audio_sec`, then commits. -/
def track_audio_processing (db : DB) (user_id : Int) (username : Option String)
    (audio_length_sec : ℚ) (now : Nat) : DB :=
  { audio_stats := db.audio_stats ++
      [{ user_id := user_id, username := username,
         audio_length_sec := audio_length_sec, processed_at := now }],
    global_stats := { total_audio_sec := db.global_stats.total_audio_sec + audio_length_sec,
                      last_updated := now } }

/-- `track_audio_processing` including its `except` path: the whole body is one
SQLite transaction, so a call either commits both effects (`ok = true`) or
raises, is caught and logged, and leaves the store untouched (`ok = false`).
Never only one of the two effects. -/
def track_audio_processing_run (ok : Bool) (db : DB) (user_id : Int)
    (username : Option String) (audio_length_sec : ℚ) (now : Nat) : DB :=
  if ok then track_audio_processing db user_id username audio_length_sec now else db

/-- Result of reading `total_audio_sec` from `global_stats`:
the fetched row, the absence of a row, or an exception from the store. -/
inductive StoreRead where
  | ok (row : Option ℚ)
  | err
  deriving Repr, DecidableEq

/-- `check_global_audio_limit` (main.py lines 101-122) as a function of what the
`SELECT total_audio_sec FROM global_stats WHERE id = 1` read produced:
with a row, returns (total minutes >= MAX_AUDIO_MINUTES, total minutes);
with no row, (false, 0); on any exception, (false, 0). -/
def check_global_audio_limit (r : StoreRead) : Bool × ℚ :=
  match r with
  | .ok (some total_audio_sec) =>
      (decide (total_audio_sec / 60 ≥ MAX_AUDIO_MINUTES), total_audio_sec / 60)
  | .ok none => (false, 0)
  | .err => (false, 0)

/-- Reading the global counter from a healthy store: the row `init_db` created
is present and holds `total_audio_sec`. -/
def readGlobal (db : DB) : StoreRead := .ok (some db.global_stats.total_audio_sec)

/-- `check_global_audio_limit` against a healthy store. -/
def check_global_audio_limit_db (db : DB) : Bool × ℚ :=
  check_global_audio_limit (readGlobal db)

/-- Sum of `audio_length_sec` over a list of `audio_stats` rows. -/
def totalOfRecords (rs : List UsageRecord) : ℚ :=
  (rs.map (fun r => r.audio_length_sec)).sum

/-- Arguments of one `track_audio_processing` call. -/
structure RecordCall where
  user_id : Int
  username : Option String
  audio_length_sec : ℚ
  now : Nat
  deriving Repr, DecidableEq

/-- Run a sequence of successful `track_audio_processing` calls from a store. -/
def runCalls (db : DB) (calls : List RecordCall) : DB :=
  calls.foldl
    (fun d c => track_audio_processing d c.user_id c.username c.audio_length_sec c.now) db

/-- The ledger operations of the spec as they appear in main.py:
`track_audio_processing` writes; the other three only read. -/
inductive LedgerOp where
  | recordUsage (ok : Bool) (user_id : Int) (username : Option String)
      (audio_length_sec : ℚ) (now : Nat)
  | checkAdmission
  | userReport (user_id : Int)
  | globalReport
  deriving Repr, DecidableEq

/-- Effect of one ledger operation on the store: `check_global_audio_limit`,
`get_user_stats` and `get_global_stats` only run SELECTs and leave the store
unchanged; `track_audio_processing` runs its transaction. -/
def applyLedgerOp (db : DB) : LedgerOp → DB
  | .recordUsage ok uid uname len now => track_audio_processing_run ok db uid uname len now
  | .checkAdmission => db
  | .userReport _ => db
  | .globalReport => db

/-- A ledger operation records only non-negative durations. -/
def LedgerOp.nonneg : LedgerOp → Prop
  | .recordUsage _ _ _ len _ => 0 ≤ len
  | _ => True

/-- Run a sequence of ledger operations. -/
def runLedgerOps (db : DB) (ops : List LedgerOp) : DB :=
  ops.foldl applyLedgerOp db

/-- Conservation invariant: the stored global total equals the sum of the
stored usage rows. -/
def Conserved (db : DB) : Prop :=
  db.global_stats.total_audio_sec = totalOfRecords db.audio_stats

theorem track_preserves_conserved (db : DB) (uid : Int) (uname : Option String)
    (len : ℚ) (now : Nat) (h : Conserved db) :
    Conserved (track_audio_processing db uid uname len now) := by
  simp only [Conserved, track_audio_processing, totalOfRecords] at *
  simp [h]

theorem runCalls_conserved (db : DB) (calls : List RecordCall) (h : Conserved db) :
    Conserved (runCalls db calls) := by
  induction calls generalizing db with
  | nil => simpa [runCalls] using h
  | cons c cs ih =>
      simpa [runCalls] using
        ih _ (track_preserves_conserved db c.user_id c.username c.audio_length_sec c.now h)

/-- **C1.** A successful `track_audio_processing` call appends exactly one
`audio_stats` row carrying the given duration and increases the global
counter by exactly that duration; a call never applies only one of the two
effects (either both commit or the store is unchanged); and after any
sequence of successful calls starting from the empty store the global
counter equals the sum of `audio_length_sec` over all rows. -/
theorem C1_record_usage_atomic_and_conserving :
    (∀ db uid uname len now,
      (track_audio_processing db uid uname len now).audio_stats =
        db.audio_stats ++ [{ user_id := uid, username := uname,
                             audio_length_sec := len, processed_at := now }] ∧
      (track_audio_processing db uid uname len now).global_stats.total_audio_sec =
        db.global_stats.total_audio_sec + len) ∧
    (∀ ok db uid uname len now,
      track_audio_processing_run ok db uid uname len now =
        track_audio_processing db uid uname len now ∨
      track_audio_processing_run ok db uid uname len now = db) ∧
    (∀ calls, (runCalls initDB calls).global_stats.total_audio_sec =
      totalOfRecords (runCalls initDB calls).audio_stats) := by
  refine ⟨fun db uid uname len now => ⟨rfl, rfl⟩, ?_, ?_⟩
  · intro ok db uid uname len now
    cases ok <;> simp [track_audio_processing_run]
  · intro calls
    have h : Conserved (runCalls initDB calls) :=
      runCalls_conserved initDB calls (by simp [Conserved, initDB, totalOfRecords])
    exact h

/-- **C5.** No ledger operation decreases the stored global total when all
recorded durations are non-negative: across any sequence of
`track_audio_processing` / `check_global_audio_limit` / `get_user_stats` /
`get_global_stats` operations, `total_audio_sec` never goes down. -/
theorem C5_total_seconds_monotone (db : DB) (ops : List LedgerOp)
    (h : ∀ op ∈ ops, op.nonneg) :
    db.global_stats.total_audio_sec ≤ (runLedgerOps db ops).global_stats.total_audio_sec := by
  induction ops generalizing db with
  | nil => simp [runLedgerOps]
  | cons op rest ih =>
      have hstep : db.global_stats.total_audio_sec ≤
          (applyLedgerOp db op).global_stats.total_audio_sec := by
        cases op with
        | recordUsage ok uid uname len now =>
            have hlen : (LedgerOp.recordUsage ok uid uname len now).nonneg :=
              h _ (List.mem_cons_self _ _)
            simp only [LedgerOp.nonneg] at hlen
            cases ok with
            | true =>
                simp only [applyLedgerOp, track_audio_processing_run, if_pos rfl]
                simp [track_audio_processing]
                linarith
            | false => simp [applyLedgerOp, track_audio_processing_run]
        | checkAdmission => simp [applyLedgerOp]
        | userReport uid => simp [applyLedgerOp]
        | globalReport => simp [applyLedgerOp]
      have hrest := ih (applyLedgerOp db op) (fun o ho => h o (by simp [ho]))
      calc db.global_stats.total_audio_sec
          ≤ (applyLedgerOp db op).global_stats.total_audio_sec := hstep
        _ ≤ (runLedgerOps (applyLedgerOp db op) rest).global_stats.total_audio_sec := hrest
        _ = (runLedgerOps db (op :: rest)).global_stats.total_audio_sec := by
            simp [runLedgerOps]

/-- Witness for C5 at a concrete store and operation list. -/
theorem C5_total_seconds_monotone_witness :
    (initDB).global_stats.total_audio_sec ≤
      (runLedgerOps initDB
        [.recordUsage true 1 (some "alice") 12 5, .checkAdmission,
         .userReport 1, .globalReport]).global_stats.total_audio_sec :=
  C5_total_seconds_monotone initDB
    [.recordUsage true 1 (some "alice") 12 5, .checkAdmission, .userReport 1, .globalReport]
    (by intro op hop; fin_cases hop <;> simp [LedgerOp.nonneg])

/-- **C7.** `check_global_audio_limit` fails open: when reading the store
raises, or when the global counter row is absent, it returns
(admitted-for-rejection = false, current minutes = 0). -/
theorem C7_admission_fails_open :
    check_global_audio_limit .err = (false, 0) ∧
    check_global_audio_limit (.ok none) = (false, 0) :=
  ⟨rfl, rfl⟩

/-- On-disk temporary artifacts of one pipeline run: the downloaded raw voice
file (`temp_file` in `handle_voice`) and the intermediate re-encoded WAV
(`temp_wav` in `transcribe_audio`). `true` = the file exists on disk. -/
structure TempFiles where
  raw : Bool
  wav : Bool
  deriving Repr, DecidableEq

/-- What the external world does to one `transcribe_audio` call:
`AudioSegment.from_file` fails to parse the bytes (decode error), the
speech API call raises (backend error, where `durationSec` is the clip's
real normalized duration), or everything succeeds. -/
inductive TranscribeOutcome where
  | decodeError (msg : String)
  | backendError (durationSec : ℚ) (msg : String)
  | success (durationSec : ℚ) (transcript : String)
  deriving Repr, DecidableEq

/-- `transcribe_audio` (main.py lines 298-343). Returns
((audio length in seconds, transcript), temp files left on disk).
The WAV temp file is created (NamedTemporaryFile) before decoding starts, so
it exists on every path. On success both temp files are unlinked and the
real duration is returned; on any exception the `except` block returns
`(0, "Transcription error: " ++ str(e))` without unlinking anything. -/
def transcribe_audio : TranscribeOutcome → (ℚ × String) × TempFiles
  | .decodeError msg =>
      ((0, "Transcription error: " ++ msg), { raw := true, wav := true })
  | .backendError _ msg =>
      ((0, "Transcription error: " ++ msg), { raw := true, wav := true })
  | .success d transcript =>
      ((d, transcript), { raw := false, wav := false })

/-- What the external world does to one `handle_voice` invocation:
fetching/downloading the voice file raises (with whether the raw temp file
had already been created), or a clip is obtained and `transcribe_audio`
runs with the given outcome. -/
inductive VoiceEvent where
  | downloadError (rawCreated : Bool) (msg : String)
  | clip (outcome : TranscribeOutcome)
  deriving Repr, DecidableEq

/-- Spec vocabulary for the exit paths of one pipeline run. -/
inductive Terminal where
  | rejected
  | completed
  | failed
  deriving Repr, DecidableEq

/-- Result of one `handle_voice` run: the store afterwards, the final
user-facing message, the temp files left on disk, and which terminal
state (in the spec's vocabulary) the run exited through. -/
structure PipelineResult where
  db : DB
  userMessage : String
  files : TempFiles
  terminal : Terminal
  deriving Repr, DecidableEq

/-- Rendering of a rational in the user-facing limit note (stands in for
Python's numeric formatting; no claim depends on its exact shape). -/
def ratRepr (q : ℚ) : String := toString q.num ++ "/" ++ toString q.den

/-- The rejection message of `handle_voice` lines 353-356. -/
def rejectionMessage : String :=
  "Sorry, the global audio processing limit has been reached (50 minutes). No more transcriptions are available."

/-- The post-transcription limit warning of `handle_voice` line 380. -/
def limitNote (usage : ℚ) : String :=
  "\n\nGlobal limit reached: " ++ ratRepr usage ++ "/50 minutes used."

/-- `handle_voice` (main.py lines 345-389). First checks the global limit and
replies with the rejection message if reached; otherwise downloads the file,
runs `transcribe_audio`, always calls `track_audio_processing` with whatever
duration it returned, re-checks the limit for the warning note, and edits the
user message; any exception in the `try` block yields `"Error: " ++ str(e)`
with no cleanup. -/
def handle_voice (db : DB) (user_id : Int) (username : Option String)
    (ev : VoiceEvent) (now : Nat) : PipelineResult :=
  let c1 := check_global_audio_limit_db db
  if c1.1 then
    { db := db, userMessage := rejectionMessage,
      files := { raw := false, wav := false }, terminal := .rejected }
  else
    match ev with
    | .downloadError rawCreated msg =>
        { db := db, userMessage := "Error: " ++ msg,
          files := { raw := rawCreated, wav := false }, terminal := .failed }
    | .clip outcome =>
        let r := transcribe_audio outcome
        let len := r.1.1
        let transcript := r.1.2
        let db2 := track_audio_processing db user_id username len now
        let c2 := check_global_audio_limit_db db2
        let lmsg := if c2.1 then limitNote c2.2 else ""
        let msg := if transcript ≠ "" then "Transcript: " ++ transcript ++ lmsg
                   else "Sorry, I could not transcribe that voice message." ++ lmsg
        { db := db2, userMessage := msg, files := r.2,
          terminal := match outcome with
            | .success _ _ => .completed
            | _ => .failed }

/-- **C2.** The admission check returns admitted-for-rejection true iff the
stored total in minutes is at least `MAX_AUDIO_MINUTES`, together with that
total in minutes; and when it is true for an inbound voice clip,
`handle_voice` replies with the rejection message and performs no further
side effects: the store is unchanged (no row inserted, total unchanged) and
no temp file is created. -/
theorem C2_admission_check_and_rejection :
    (∀ db, ((check_global_audio_limit_db db).1 = true ↔
        db.global_stats.total_audio_sec / 60 ≥ MAX_AUDIO_MINUTES) ∧
      (check_global_audio_limit_db db).2 = db.global_stats.total_audio_sec / 60) ∧
    (∀ db uid uname ev now, (check_global_audio_limit_db db).1 = true →
      handle_voice db uid uname ev now =
        { db := db, userMessage := rejectionMessage,
          files := { raw := false, wav := false }, terminal := .rejected }) := by
  constructor
  · intro db
    refine ⟨?_, rfl⟩
    simp [check_global_audio_limit_db, check_global_audio_limit, readGlobal]
  · intro db uid uname ev now h
    simp [handle_voice, h]

/-- Witness for C2 at a store holding 3000 seconds (= 50 minutes). -/
theorem C2_admission_check_and_rejection_witness :
    (check_global_audio_limit_db
        { audio_stats := [], global_stats := { total_audio_sec := 3000, last_updated := 0 } }).1 = true ∧
    handle_voice
        { audio_stats := [], global_stats := { total_audio_sec := 3000, last_updated := 0 } }
        1 (some "alice") (.clip (.success 12 "hi")) 9 =
      { db := { audio_stats := [], global_stats := { total_audio_sec := 3000, last_updated := 0 } },
        userMessage := rejectionMessage,
        files := { raw := false, wav := false }, terminal := .rejected } :=
  ⟨by norm_num [check_global_audio_limit_db, check_global_audio_limit, readGlobal,
      MAX_AUDIO_MINUTES],
   C2_admission_check_and_rejection.2
     { audio_stats := [], global_stats := { total_audio_sec := 3000, last_updated := 0 } }
     1 (some "alice") (.clip (.success 12 "hi")) 9
     (by norm_num [check_global_audio_limit_db, check_global_audio_limit, readGlobal,
        MAX_AUDIO_MINUTES])⟩

theorem check_after_zero_track (db : DB) (uid : Int) (uname : Option String) (now : Nat) :
    check_global_audio_limit_db (track_audio_processing db uid uname 0 now) =
      check_global_audio_limit_db db := by
  simp [check_global_audio_limit_db, readGlobal, track_audio_processing]

theorem transcription_error_ne_empty (msg : String) :
    ("Transcription error: " ++ msg) ≠ "" := by
  intro h
  have hl := congrArg String.length h
  rw [String.length_append] at hl
  have h21 : ("Transcription error: " : String).length = 21 := rfl
  have h0 : ("" : String).length = 0 := rfl
  omega

theorem check_initDB_false : (check_global_audio_limit_db initDB).1 = false := by
  norm_num [check_global_audio_limit_db, check_global_audio_limit, readGlobal,
    MAX_AUDIO_MINUTES, initDB]

/-- Counterexample to C3 as stated: a 30-second clip whose backend call fails
does not produce a UsageRecord with duration 30 and does not increase the
global total by 30 — `transcribe_audio` returns duration 0 from its `except`
block, so a zero-duration row is recorded and the total is unchanged. -/
theorem C3_counterexample :
    ((handle_voice initDB 7 (some "bob") (.clip (.backendError 30 "provider error")) 3).db.audio_stats.map
        (fun r => r.audio_length_sec)) = [0] ∧
    (handle_voice initDB 7 (some "bob") (.clip (.backendError 30 "provider error")) 3).db.global_stats.total_audio_sec ≠
      initDB.global_stats.total_audio_sec + 30 := by
  have h := check_initDB_false
  have hc2 := check_after_zero_track initDB 7 (some "bob") 3
  refine ⟨?_, ?_⟩ <;>
  · simp only [handle_voice, transcribe_audio, hc2, h]
    simp [track_audio_processing, initDB]
    try norm_num

/-- **C3 (amended).** For a clip whose normalization succeeds but whose
backend call fails, the pipeline reaches the `Failed` exit path and the user
receives a message carrying the error, and a UsageRecord is still created —
but with `duration_seconds = 0` rather than the clip's duration `d`
(`transcribe_audio` returns 0 on any exception), leaving the global total
unchanged. -/
theorem C3_backend_error_records_zero (db : DB) (uid : Int) (uname : Option String)
    (d : ℚ) (msg : String) (now : Nat)
    (h : (check_global_audio_limit_db db).1 = false) :
    (handle_voice db uid uname (.clip (.backendError d msg)) now).terminal = .failed ∧
    (handle_voice db uid uname (.clip (.backendError d msg)) now).db.audio_stats =
      db.audio_stats ++ [{ user_id := uid, username := uname,
                           audio_length_sec := 0, processed_at := now }] ∧
    (handle_voice db uid uname (.clip (.backendError d msg)) now).db.global_stats.total_audio_sec =
      db.global_stats.total_audio_sec ∧
    (handle_voice db uid uname (.clip (.backendError d msg)) now).userMessage =
      "Transcript: " ++ ("Transcription error: " ++ msg) := by
  have hc2 := check_after_zero_track db uid uname now
  refine ⟨?_, ?_, ?_, ?_⟩ <;>
  · simp only [handle_voice, transcribe_audio, hc2, h]
    simp [track_audio_processing, transcription_error_ne_empty msg]

/-- Witness for the amended C3 at the empty store and a 30-second clip. -/
theorem C3_backend_error_records_zero_witness :
    (check_global_audio_limit_db initDB).1 = false ∧
    (handle_voice initDB 2 (some "carol") (.clip (.backendError 30 "quota exhausted")) 4).db.global_stats.total_audio_sec =
      initDB.global_stats.total_audio_sec :=
  ⟨check_initDB_false,
   (C3_backend_error_records_zero initDB 2 (some "carol") 30 "quota exhausted" 4
      check_initDB_false).2.2.1⟩

/-- Counterexample to C4 as stated: a clip whose bytes cannot be decoded does
lead to a UsageRecord — `handle_voice` unconditionally calls
`track_audio_processing` with the 0 duration `transcribe_audio` returned, so
a (zero-duration) row is created, contradicting "no UsageRecord of any
duration, including zero, is created". -/
theorem C4_counterexample :
    (handle_voice initDB 7 (some "bob") (.clip (.decodeError "bad header")) 3).db.audio_stats ≠ [] ∧
    (handle_voice initDB 7 (some "bob") (.clip (.decodeError "bad header")) 3).db.audio_stats.length = 1 := by
  have h := check_initDB_false
  have hc2 := check_after_zero_track initDB 7 (some "bob") 3
  refine ⟨?_, ?_⟩ <;>
  · simp only [handle_voice, transcribe_audio, hc2, h]
    simp [track_audio_processing, initDB]

/-- **C4 (amended).** For a clip whose bytes cannot be parsed as audio, the
pipeline reaches the `Failed` exit path with a message surfacing the decode
failure, and the global total is unchanged — but a zero-duration UsageRecord
is still created for the request (the code calls `track_audio_processing`
with the 0 that `transcribe_audio` returned). -/
theorem C4_decode_error_records_zero (db : DB) (uid : Int) (uname : Option String)
    (msg : String) (now : Nat)
    (h : (check_global_audio_limit_db db).1 = false) :
    (handle_voice db uid uname (.clip (.decodeError msg)) now).terminal = .failed ∧
    (handle_voice db uid uname (.clip (.decodeError msg)) now).db.audio_stats =
      db.audio_stats ++ [{ user_id := uid, username := uname,
                           audio_length_sec := 0, processed_at := now }] ∧
    (handle_voice db uid uname (.clip (.decodeError msg)) now).db.global_stats.total_audio_sec =
      db.global_stats.total_audio_sec ∧
    (handle_voice db uid uname (.clip (.decodeError msg)) now).userMessage =
      "Transcript: " ++ ("Transcription error: " ++ msg) := by
  have hc2 := check_after_zero_track db uid uname now
  refine ⟨?_, ?_, ?_, ?_⟩ <;>
  · simp only [handle_voice, transcribe_audio, hc2, h]
    simp [track_audio_processing, transcription_error_ne_empty msg]

/-- Witness for the amended C4 at the empty store. -/
theorem C4_decode_error_records_zero_witness :
    (check_global_audio_limit_db initDB).1 = false ∧
    (handle_voice initDB 5 none (.clip (.decodeError "bad header")) 8).db.global_stats.total_audio_sec =
      initDB.global_stats.total_audio_sec :=
  ⟨check_initDB_false,
   (C4_decode_error_records_zero initDB 5 none "bad header" 8 check_initDB_false).2.2.1⟩

/-- Counterexample to C6 as stated: when decoding fails, the run exits with
both the downloaded raw file and the intermediate WAV still on disk —
`transcribe_audio`'s `except` block returns without unlinking either, and
`handle_voice` has no cleanup of its own. -/
theorem C6_counterexample :
    (handle_voice initDB 7 none (.clip (.decodeError "bad header")) 3).files ≠
      { raw := false, wav := false } := by
  have h := check_initDB_false
  simp only [handle_voice, transcribe_audio, h]
  simp

/-- **C6 (amended).** Temporary artifacts are removed only on the fully
successful path: a successful run deletes both temp files, but on a decode
or backend failure both the raw file and the intermediate WAV remain on
disk, and on a download failure the raw temp file (if already created)
remains. -/
theorem C6_cleanup_only_on_success (db : DB) (uid : Int) (uname : Option String)
    (d : ℚ) (t msg : String) (rawCreated : Bool) (now : Nat)
    (h : (check_global_audio_limit_db db).1 = false) :
    (handle_voice db uid uname (.clip (.success d t)) now).files =
      { raw := false, wav := false } ∧
    (handle_voice db uid uname (.clip (.decodeError msg)) now).files =
      { raw := true, wav := true } ∧
    (handle_voice db uid uname (.clip (.backendError d msg)) now).files =
      { raw := true, wav := true } ∧
    (handle_voice db uid uname (.downloadError rawCreated msg) now).files =
      { raw := rawCreated, wav := false } := by
  refine ⟨?_, ?_, ?_, ?_⟩ <;>
  · simp only [handle_voice, transcribe_audio, h]
    simp

/-- Witness for the amended C6 at the empty store. -/
theorem C6_cleanup_only_on_success_witness :
    (check_global_audio_limit_db initDB).1 = false ∧
    (handle_voice initDB 7 none (.clip (.decodeError "bad header")) 3).files =
      { raw := true, wav := true } :=
  ⟨check_initDB_false,
   (C6_cleanup_only_on_success initDB 7 none 12 "hi" "bad header" true 3
      check_initDB_false).2.1⟩

/-- Counterexample to C9 as stated: the string shown to the user on an
internal failure does depend on the content of the internal exception —
two different exception texts produce two different user-facing messages. -/
theorem C9_counterexample :
    (handle_voice initDB 7 none (.downloadError true "database is locked") 3).userMessage ≠
    (handle_voice initDB 7 none (.downloadError true "connection reset by peer") 3).userMessage := by
  have h := check_initDB_false
  simp only [handle_voice, h]
  simp

/-- **C9 (amended).** On an internal unexpected failure while handling a voice
clip the user-facing message embeds the raw exception text: the `except`
block of `handle_voice` replies with `"Error: "` followed by `str(e)`, and a
failure inside `transcribe_audio` surfaces as a pseudo-transcript
`"Transcription error: "` followed by `str(e)` — the message is not generic
and depends on the internal error detail. -/
theorem C9_error_message_embeds_detail (db : DB) (uid : Int) (uname : Option String)
    (rawCreated : Bool) (e : String) (now : Nat)
    (h : (check_global_audio_limit_db db).1 = false) :
    (handle_voice db uid uname (.downloadError rawCreated e) now).userMessage =
      "Error: " ++ e ∧
    (handle_voice db uid uname (.clip (.decodeError e)) now).userMessage =
      "Transcript: " ++ ("Transcription error: " ++ e) := by
  have hc2 := check_after_zero_track db uid uname now
  refine ⟨?_, ?_⟩ <;>
  · simp only [handle_voice, transcribe_audio, hc2, h]
    simp [transcription_error_ne_empty e]

/-- Witness for the amended C9 at the empty store. -/
theorem C9_error_message_embeds_detail_witness :
    (check_global_audio_limit_db initDB).1 = false ∧
    (handle_voice initDB 7 none (.downloadError true "database is locked") 3).userMessage =
      "Error: " ++ "database is locked" :=
  ⟨check_initDB_false,
   (C9_error_message_embeds_detail initDB 7 none true "database is locked" 3
      check_initDB_false).1⟩

/-- Result shape of `get_user_stats`. -/
structure UserStatsResult where
  total_audio_min : ℚ
  last_updated : Option Nat
  deriving Repr, DecidableEq

/-- The `audio_stats` rows of one user (the WHERE clause of `get_user_stats`). -/
def userRecords (db : DB) (uid : Int) : List UsageRecord :=
  db.audio_stats.filter (fun r => r.user_id = uid)

/-- `get_user_stats` (main.py lines 169-196). The SQL returns one row
(SUM(audio_length_sec), MAX(processed_at)); SUM is NULL when the user has no
rows. The Python guard `if result and result[0]` takes the populated branch
exactly when the sum is non-NULL and non-zero, i.e. exactly when the user's
durations sum to something other than 0; otherwise it returns
(0 minutes, no last activity). -/
def get_user_stats (db : DB) (uid : Int) : UserStatsResult :=
  let recs := userRecords db uid
  let s := totalOfRecords recs
  if s ≠ 0 then
    { total_audio_min := s / 60,
      last_updated := some ((recs.map (fun r => r.processed_at)).foldl max 0) }
  else
    { total_audio_min := 0, last_updated := none }

/-- **C10.** A user who has usage rows whose durations sum to exactly 0 gets
the same report as a user with no rows at all: `get_user_stats` returns
0 total minutes and no last activity, even though a most-recent
`processed_at` exists for that user in the store. -/
theorem C10_zero_sum_user_indistinguishable (db : DB) (uid : Int)
    (hne : userRecords db uid ≠ [])
    (hzero : totalOfRecords (userRecords db uid) = 0) :
    get_user_stats db uid = { total_audio_min := 0, last_updated := none } ∧
    ∀ db2 uid2, userRecords db2 uid2 = [] →
      get_user_stats db uid = get_user_stats db2 uid2 := by
  have h1 : get_user_stats db uid = { total_audio_min := 0, last_updated := none } := by
    simp only [get_user_stats, hzero]
    simp
  refine ⟨h1, ?_⟩
  intro db2 uid2 h2
  rw [h1]
  simp [get_user_stats, h2, totalOfRecords]

/-- Witness for C10: a store holding one zero-duration row for user 1
(e.g. left by a failed transcription) reports as if the user never appeared. -/
theorem C10_zero_sum_user_indistinguishable_witness :
    userRecords (track_audio_processing initDB 1 (some "bob") 0 7) 1 ≠ [] ∧
    totalOfRecords (userRecords (track_audio_processing initDB 1 (some "bob") 0 7) 1) = 0 ∧
    get_user_stats (track_audio_processing initDB 1 (some "bob") 0 7) 1 =
      { total_audio_min := 0, last_updated := none } :=
  ⟨by simp [userRecords, track_audio_processing, initDB],
   by simp [userRecords, track_audio_processing, initDB, totalOfRecords],
   (C10_zero_sum_user_indistinguishable (track_audio_processing initDB 1 (some "bob") 0 7) 1
      (by simp [userRecords, track_audio_processing, initDB])
      (by simp [userRecords, track_audio_processing, initDB, totalOfRecords])).1⟩

/-- The distinct `username` values of the store (the GROUP BY username keys
of the top-users query in `get_global_stats`). -/
def groupKeys (rs : List UsageRecord) : List (Option String) :=
  (rs.map (fun r => r.username)).dedup

/-- SUM(audio_length_sec) over one username group. -/
def groupTotalSec (rs : List UsageRecord) (u : Option String) : ℚ :=
  totalOfRecords (rs.filter (fun r => r.username = u))

/-- The rows produced by GROUP BY username before ordering. -/
def groupedTotals (rs : List UsageRecord) : List (Option String × ℚ) :=
  (groupKeys rs).map (fun u => (u, groupTotalSec rs u))

/-- Insertion into a list sorted by descending total, placing the new row
after every strictly larger total and before the first equal-or-smaller
one — a fixed, stable, deterministic tie order standing in for SQLite's
unspecified but deterministic ORDER BY tie behaviour. -/
def insertBySecDesc (p : Option String × ℚ) :
    List (Option String × ℚ) → List (Option String × ℚ)
  | [] => [p]
  | q :: qs => if q.2 > p.2 then q :: insertBySecDesc p qs else p :: q :: qs

/-- ORDER BY total_sec DESC via stable insertion sort. -/
def sortBySecDesc : List (Option String × ℚ) → List (Option String × ℚ)
  | [] => []
  | p :: ps => insertBySecDesc p (sortBySecDesc ps)

/-- The full top-users query: group, order descending, LIMIT 5
(still in seconds). -/
def top_users_rows (rs : List UsageRecord) : List (Option String × ℚ) :=
  (sortBySecDesc (groupedTotals rs)).take 5

/-- Result shape of `get_global_stats`. -/
structure GlobalStatsResult where
  total_audio_min : ℚ
  last_updated : Option Nat
  top_users : List (Option String × ℚ)
  deriving Repr, DecidableEq

/-- `get_global_stats` (main.py lines 125-166), healthy store: reads the
global row, runs the top-users query and converts seconds to minutes. -/
def get_global_stats (db : DB) : GlobalStatsResult :=
  { total_audio_min := db.global_stats.total_audio_sec / 60,
    last_updated := some db.global_stats.last_updated,
    top_users := (top_users_rows db.audio_stats).map (fun p => (p.1, p.2 / 60)) }

theorem mem_insertBySecDesc (a p : Option String × ℚ) (l : List (Option String × ℚ)) :
    a ∈ insertBySecDesc p l ↔ a = p ∨ a ∈ l := by
  induction l with
  | nil => simp [insertBySecDesc]
  | cons q qs ih =>
      by_cases hc : q.2 > p.2
      · simp only [insertBySecDesc, if_pos hc, List.mem_cons, ih]
        tauto
      · simp only [insertBySecDesc, if_neg hc, List.mem_cons]

theorem sorted_insertBySecDesc (p : Option String × ℚ) (l : List (Option String × ℚ))
    (h : List.Sorted (fun a b => b.2 ≤ a.2) l) :
    List.Sorted (fun a b => b.2 ≤ a.2) (insertBySecDesc p l) := by
  induction l with
  | nil => simp [insertBySecDesc]
  | cons q qs ih =>
      rw [List.sorted_cons] at h
      obtain ⟨hq, hqs⟩ := h
      by_cases hc : q.2 > p.2
      · rw [insertBySecDesc, if_pos hc, List.sorted_cons]
        refine ⟨?_, ih hqs⟩
        intro b hb
        rcases (mem_insertBySecDesc b p qs).1 hb with hb | hb
        · subst hb; exact le_of_lt hc
        · exact hq b hb
      · push_neg at hc
        rw [insertBySecDesc, if_neg (by push_neg; exact hc), List.sorted_cons]
        refine ⟨?_, ?_⟩
        · intro b hb
          rcases List.mem_cons.1 hb with hb | hb
          · subst hb; exact hc
          · exact le_trans (hq b hb) hc
        · rw [List.sorted_cons]; exact ⟨hq, hqs⟩

theorem sorted_sortBySecDesc (l : List (Option String × ℚ)) :
    List.Sorted (fun a b => b.2 ≤ a.2) (sortBySecDesc l) := by
  induction l with
  | nil => simp [sortBySecDesc]
  | cons p ps ih => exact sorted_insertBySecDesc p _ ih

theorem mem_sortBySecDesc (a : Option String × ℚ) (l : List (Option String × ℚ)) :
    a ∈ sortBySecDesc l ↔ a ∈ l := by
  induction l with
  | nil => simp [sortBySecDesc]
  | cons p ps ih =>
      rw [sortBySecDesc, mem_insertBySecDesc, ih, List.mem_cons]

/-- Scenario E store: six users with 20, 5, 5, 1, 1 and 1 minutes. -/
def dbE : DB :=
  { audio_stats :=
      [{ user_id := 1, username := some "A", audio_length_sec := 1200, processed_at := 1 },
       { user_id := 2, username := some "B", audio_length_sec := 300, processed_at := 2 },
       { user_id := 3, username := some "C", audio_length_sec := 300, processed_at := 3 },
       { user_id := 4, username := some "D", audio_length_sec := 60, processed_at := 4 },
       { user_id := 5, username := some "E", audio_length_sec := 60, processed_at := 5 },
       { user_id := 6, username := some "F", audio_length_sec := 60, processed_at := 6 }],
    global_stats := { total_audio_sec := 1980, last_updated := 6 } }

/-- **C8.** For every store, the top-users list of `get_global_stats` has at
most 5 entries of (username, minutes); it is ordered by descending minutes;
every username group left out has a total no larger than any listed entry
(so the entries are the largest per-username totals); every entry is the
exact total of one username group; and on the Scenario E store (20, 5, 5,
1, 1, 1 minutes) exactly one of the three tied 1-minute users is excluded,
by the fixed deterministic stable tie order of the embedding. -/
theorem C8_top_users_report :
    (∀ db,
      (get_global_stats db).top_users.length ≤ 5 ∧
      List.Sorted (fun a b => b.2 ≤ a.2) (get_global_stats db).top_users ∧
      (∀ u, u ∈ groupKeys db.audio_stats →
        (u, groupTotalSec db.audio_stats u / 60) ∉ (get_global_stats db).top_users →
        ∀ q ∈ (get_global_stats db).top_users,
          groupTotalSec db.audio_stats u / 60 ≤ q.2) ∧
      (∀ q ∈ (get_global_stats db).top_users,
        ∃ u ∈ groupKeys db.audio_stats, q = (u, groupTotalSec db.audio_stats u / 60))) ∧
    (get_global_stats dbE).top_users =
      [(some "A", 20), (some "B", 5), (some "C", 5), (some "D", 1), (some "E", 1)] := by
  constructor
  · intro db
    have hsort : List.Sorted (fun a b => b.2 ≤ a.2)
        (sortBySecDesc (groupedTotals db.audio_stats)) := sorted_sortBySecDesc _
    have htake : List.Sorted (fun a b => b.2 ≤ a.2)
        ((sortBySecDesc (groupedTotals db.audio_stats)).take 5) :=
      List.Pairwise.sublist (List.take_sublist 5 _) hsort
    refine ⟨?_, ?_, ?_, ?_⟩
    · simp only [get_global_stats, top_users_rows, List.length_map]
      exact List.length_take_le 5 _
    · simp only [get_global_stats, top_users_rows]
      exact List.Pairwise.map _
        (fun a b hab => (div_le_div_iff_of_pos_right (by norm_num : (0:ℚ) < 60)).mpr hab) htake
    · intro u hu hnot q hq
      have hp0 : (u, groupTotalSec db.audio_stats u) ∈ groupedTotals db.audio_stats :=
        List.mem_map_of_mem _ hu
      have hps : (u, groupTotalSec db.audio_stats u) ∈
          sortBySecDesc (groupedTotals db.audio_stats) :=
        (mem_sortBySecDesc _ _).2 hp0
      have hsplit : (u, groupTotalSec db.audio_stats u) ∈
          (sortBySecDesc (groupedTotals db.audio_stats)).take 5 ++
          (sortBySecDesc (groupedTotals db.audio_stats)).drop 5 := by
        rw [List.take_append_drop]; exact hps
      rcases List.mem_append.1 hsplit with hmem | hmem
      · exact absurd (by
          simp only [get_global_stats, top_users_rows]
          exact List.mem_map_of_mem (fun p => (p.1, p.2 / 60)) hmem) hnot
      · obtain ⟨q', hq', hfq⟩ := List.mem_map.1
          (by simpa only [get_global_stats, top_users_rows] using hq)
        have hrel := hsort.rel_of_mem_take_of_mem_drop hq' hmem
        rw [← hfq]
        exact (div_le_div_iff_of_pos_right (by norm_num : (0:ℚ) < 60)).mpr hrel
    · intro q hq
      obtain ⟨q', hq', hfq⟩ := List.mem_map.1
        (by simpa only [get_global_stats, top_users_rows] using hq)
      have hmem1 : q' ∈ sortBySecDesc (groupedTotals db.audio_stats) :=
        (List.take_sublist 5 _).mem hq'
      have hmem2 : q' ∈ groupedTotals db.audio_stats := (mem_sortBySecDesc _ _).1 hmem1
      obtain ⟨u, hu, hqu⟩ := List.mem_map.1 hmem2
      exact ⟨u, hu, by rw [← hfq, ← hqu]⟩
  · have hkeys : groupKeys dbE.audio_stats =
        [some "A", some "B", some "C", some "D", some "E", some "F"] := by decide
    have htotA : groupTotalSec dbE.audio_stats (some "A") = 1200 := by
      rw [groupTotalSec, show dbE.audio_stats.filter (fun r => r.username = some "A") =
        [{ user_id := 1, username := some "A", audio_length_sec := 1200, processed_at := 1 }]
        from by decide]
      simp [totalOfRecords]
    have htotB : groupTotalSec dbE.audio_stats (some "B") = 300 := by
      rw [groupTotalSec, show dbE.audio_stats.filter (fun r => r.username = some "B") =
        [{ user_id := 2, username := some "B", audio_length_sec := 300, processed_at := 2 }]
        from by decide]
      simp [totalOfRecords]
    have htotC : groupTotalSec dbE.audio_stats (some "C") = 300 := by
      rw [groupTotalSec, show dbE.audio_stats.filter (fun r => r.username = some "C") =
        [{ user_id := 3, username := some "C", audio_length_sec := 300, processed_at := 3 }]
        from by decide]
      simp [totalOfRecords]
    have htotD : groupTotalSec dbE.audio_stats (some "D") = 60 := by
      rw [groupTotalSec, show dbE.audio_stats.filter (fun r => r.username = some "D") =
        [{ user_id := 4, username := some "D", audio_length_sec := 60, processed_at := 4 }]
        from by decide]
      simp [totalOfRecords]
    have htotE : groupTotalSec dbE.audio_stats (some "E") = 60 := by
      rw [groupTotalSec, show dbE.audio_stats.filter (fun r => r.username = some "E") =
        [{ user_id := 5, username := some "E", audio_length_sec := 60, processed_at := 5 }]
        from by decide]
      simp [totalOfRecords]
    have htotF : groupTotalSec dbE.audio_stats (some "F") = 60 := by
      rw [groupTotalSec, show dbE.audio_stats.filter (fun r => r.username = some "F") =
        [{ user_id := 6, username := some "F", audio_length_sec := 60, processed_at := 6 }]
        from by decide]
      simp [totalOfRecords]
    have hgroups : groupedTotals dbE.audio_stats =
        [(some "A", 1200), (some "B", 300), (some "C", 300),
         (some "D", 60), (some "E", 60), (some "F", 60)] := by
      simp only [groupedTotals, hkeys, List.map_cons, List.map_nil,
        htotA, htotB, htotC, htotD, htotE, htotF]
    have hsorted : (sortBySecDesc
        [(some "A", (1200 : ℚ)), (some "B", 300), (some "C", 300),
         (some "D", 60), (some "E", 60), (some "F", 60)]).take 5 =
        [(some "A", (1200 : ℚ)), (some "B", 300), (some "C", 300),
         (some "D", 60), (some "E", 60)] := by decide
    simp only [get_global_stats, top_users_rows, hgroups, hsorted,
      List.map_cons, List.map_nil]
    norm_num

/-- Witness for C8 at the Scenario E store. -/
theorem C8_top_users_report_witness :
    (get_global_stats dbE).top_users.length ≤ 5 :=
  (C8_top_users_report.1 dbE).1
